import Mathlib

set_option maxRecDepth 10000

namespace Omnisent

/-! Shallow embedding of the Omnisent-Dashboard pipeline:
prepare_data.py (Sampler), analyze_sentiment.py (Classifier) and the
data-preparation / filtering logic of app.py (Dashboard).
Python strings are modelled as Lean strings; missing CSV cells as Option;
external services (pandas sample, the transformer pipeline) as function
parameters constrained by their documented contracts. -/

/-- Models Python str.strip on a character list: remove leading and trailing whitespace. -/
def lcTrim (cs : List Char) : List Char :=
  ((cs.dropWhile Char.isWhitespace).reverse.dropWhile Char.isWhitespace).reverse

/-- Models Python s.strip(). -/
def strTrim (s : String) : String := ⟨lcTrim s.data⟩

/-- Models Python s[:n], the first n characters of s. -/
def strTake (s : String) (n : Nat) : String := ⟨s.data.take n⟩

/-- Models Python str.capitalize: first character upper-cased, the rest lower-cased. -/
def lcCapitalize : List Char → List Char
  | [] => []
  | c :: rest => c.toUpper :: rest.map Char.toLower

/-- Models Python s.capitalize() on a String, as applied to the sentiment column. -/
def capitalize (s : String) : String := ⟨lcCapitalize s.data⟩

/-- Calendar date as far as the pipeline uses it: to_period needs year and month,
dt.year needs the year; no other component is ever read. -/
structure Date where
  year : Nat
  month : Nat
deriving DecidableEq

/-! Sampler stage, prepare_data.py. -/

/-- Raw tweet export row after the external pd.to_datetime parse
(errors coerce to null, modelled as none); a missing text cell is none. -/
structure RawRow where
  tweet_created_at : Option Date
  tweet_full_text : Option String
  user_screen_name : String
deriving DecidableEq

/-- Tweet record flowing between the stages: columns date, text, club_name. -/
structure TweetRow where
  date : Option Date
  text : Option String
  club_name : String
deriving DecidableEq

/-- Column selection and rename of prepare_data.py lines 9-15. -/
def renameRow (r : RawRow) : TweetRow :=
  { date := r.tweet_created_at
    text := r.tweet_full_text
    club_name := r.user_screen_name }

/-- Models df.dropna(subset=[text]) : drop rows whose text cell is missing. -/
def dropNullText (rows : List TweetRow) : List TweetRow :=
  rows.filter (fun r => !r.text.isNone)

/-- Models df[df[text].str.strip() != emptystring] : drop rows whose text strips to empty. -/
def dropBlankText (rows : List TweetRow) : List TweetRow :=
  rows.filter (fun r => decide (strTrim (r.text.getD "") ≠ ""))

/-- Two-step text cleaning shared verbatim by prepare_data.py lines 18-19 and
analyze_sentiment.py lines 8-9. -/
def cleanTextRows (rows : List TweetRow) : List TweetRow :=
  dropBlankText (dropNullText rows)

/-- Sampler of prepare_data.py. sampleFn models the external pandas
DataFrame.sample(n, random_state) drawing, passed (random_state, n, rows);
its contract (returns exactly n of the given rows) enters the theorems as
hypotheses. The source draws with n = 1500 and random_state = 42 exactly when
the cleaned table has more than 1500 rows. -/
def df_clean (sampleFn : Nat → Nat → List TweetRow → List TweetRow)
    (raw : List RawRow) : List TweetRow :=
  let cleaned := cleanTextRows (raw.map renameRow)
  if 1500 < cleaned.length then sampleFn 42 1500 cleaned else cleaned

/-! Classifier stage, analyze_sentiment.py. -/

/-- Labeled record: tweet record plus the sentiment column. -/
structure LabeledRow extends TweetRow where
  sentiment : String
deriving DecidableEq

/-- safe_predict of analyze_sentiment.py. clf models the external transformer
pipeline call on the truncated text; clf returning none models the call raising
an exception of any kind, caught by the bare except and replaced by NEUTRAL. -/
def safe_predict (clf : String → Option String) (text : String) : String :=
  match clf (strTake text 512) with
  | some label => label
  | none => "NEUTRAL"

/-- Classifier stage body: re-clean the text column exactly as the Sampler does
(lines 8-9), then attach sentiment = safe_predict(text) to every remaining row
(line 24). -/
def analyzeSentiment (clf : String → Option String) (rows : List TweetRow) :
    List LabeledRow :=
  (cleanTextRows rows).map
    (fun r => { toTweetRow := r, sentiment := safe_predict clf (r.text.getD "") })

/-! Dashboard stage, app.py. -/

/-- Labeled CSV row as the dashboard reads it, after the external
pd.to_datetime parse of line 28 (errors coerce to null, modelled as none). -/
structure CsvRow where
  date : Option Date
  text : String
  club_name : String
  sentiment : String
deriving DecidableEq

/-- Row of the loaded dashboard dataframe: the CSV columns plus the derived
year column of line 29. -/
structure LoadedRow where
  date : Option Date
  text : String
  club_name : String
  sentiment : String
  year : Option Nat
deriving DecidableEq

/-- Models re.sub of the character class underscore/hyphen with a space, line 34. -/
def replaceUD (cs : List Char) : List Char :=
  cs.map (fun c => if c = '_' ∨ c = '-' then ' ' else c)

/-- Case-insensitive test that pat occurs at the head of s. -/
def ciStarts : List Char → List Char → Bool
  | [], _ => true
  | _ :: _, [] => false
  | p :: ps, c :: cs => (p.toLower == c.toLower) && ciStarts ps cs

/-- Alternatives of the line 35 regex, in the order the alternation lists them. -/
def boilerAlts : List (List Char) :=
  ["FC".data, "cf".data, "official".data, "en".data, "es".data,
   "cat".data, "de".data, "fr".data, "nl".data]

/-- Length of the first alternative matching case-insensitively at the head of s,
as the regex engine picks it at a given position. -/
def findAlt (s : List Char) : Option Nat :=
  (boilerAlts.find? (fun alt => ciStarts alt s)).map List.length

/-- Scan of re.sub(alternation, emptystring, s, case-insensitive): at each
position remove the first matching alternative and continue after it, else keep
the character. Fuel (at least the list length) bounds the recursion. -/
def stripTokensAux : Nat → List Char → List Char
  | 0, cs => cs
  | _, [] => []
  | fuel + 1, c :: rest =>
    match findAlt (c :: rest) with
    | some k => stripTokensAux fuel ((c :: rest).drop k)
    | none => c :: stripTokensAux fuel rest

/-- Models the line 35 boilerplate-token removal. -/
def stripTokens (cs : List Char) : List Char := stripTokensAux cs.length cs

/-- Models Python str.title: an alphabetic character is upper-cased when the
previous character is not alphabetic and lower-cased otherwise. The Bool carries
whether the previous character was alphabetic. -/
def lcTitleAux : Bool → List Char → List Char
  | _, [] => []
  | prevAlpha, c :: rest =>
    if c.isAlpha then
      (if prevAlpha then c.toLower else c.toUpper) :: lcTitleAux true rest
    else
      c :: lcTitleAux false rest

/-- Models s.str.title() of line 37. -/
def lcTitle (cs : List Char) : List Char := lcTitleAux false cs

/-- Club-name cleaning chain of load_data, lines 32-38. -/
def cleanClubName (s : String) : String :=
  ⟨lcTitle (lcTrim (stripTokens (replaceUD s.data)))⟩

/-- load_data of app.py lines 22-39: capitalize sentiment, derive year from the
parsed date (null-safe), clean the club name. -/
def load_data (rows : List CsvRow) : List LoadedRow :=
  rows.map (fun r =>
    { date := r.date
      text := r.text
      club_name := cleanClubName r.club_name
      sentiment := capitalize r.sentiment
      year := r.date.map Date.year })

/-- Sidebar selection; none models the All choice of a dimension. -/
structure Selection where
  year : Option Nat
  club : Option String

/-- Filtering of app.py lines 75-79: start from a copy of the loaded frame,
filter by year equality unless All, then by club equality unless All. -/
def filtered_df (sel : Selection) (df : List LoadedRow) : List LoadedRow :=
  let f1 := match sel.year with
    | none => df
    | some y => df.filter (fun r => decide (r.year = some y))
  match sel.club with
  | none => f1
  | some c => f1.filter (fun r => decide (r.club_name = c))

/-! Aggregates the four tabs display, each as computed by app.py. -/

/-- Total-tweets metric, line 98. -/
def totalTweets (fdf : List LoadedRow) : Nat := fdf.length

/-- Size of one sentiment group of the line 121 groupby (also the metric of
lines 99-100 and the pie input of line 106). -/
def sentCount (fdf : List LoadedRow) (s : String) : Nat :=
  (fdf.filter (fun r => decide (r.sentiment = s))).length

/-- Month key produced by date.dt.to_period(M).astype(str) on line 145:
a string, either the year-month period or the literal string NaT when the
date is null. natStr models the string NaT; ym y m models the period string. -/
inductive MKey where
  | natStr : MKey
  | ym (year month : Nat) : MKey
deriving DecidableEq

/-- Models line 145 month-column computation on one row. -/
def monthKey : Option Date → MKey
  | none => MKey.natStr
  | some d => MKey.ym d.year d.month

/-- Size of one (month, sentiment) group of the line 146 groupby. String keys
are never NaN, so no row is dropped by the groupby. -/
def bucketCount (fdf : List LoadedRow) (k : MKey) (s : String) : Nat :=
  (fdf.filter (fun r => decide (monthKey r.date = k ∧ r.sentiment = s))).length

/-- Modelled from the spec: rows with null date excluded from time-bucketed
views. Comparison definition for the monthly buckets following the words of the
specification rather than the source. -/
def bucketCountSpec (fdf : List LoadedRow) (k : MKey) (s : String) : Nat :=
  ((fdf.filter (fun r => !r.date.isNone)).filter
    (fun r => decide (monthKey r.date = k ∧ r.sentiment = s))).length

/-- Size of one club group of the line 164 groupby (tweet-volume ranking). -/
def clubCount (fdf : List LoadedRow) (c : String) : Nat :=
  (fdf.filter (fun r => decide (r.club_name = c))).length

/-- Size of one (club, sentiment) cell of the line 187 and line 214 groupbys. -/
def clubSentCount (fdf : List LoadedRow) (c s : String) : Nat :=
  (fdf.filter (fun r => decide (r.club_name = c ∧ r.sentiment = s))).length

/-- Laplace-smoothed balance of line 193: Positive / (Negative + 1), in exact
rational arithmetic. -/
def ratioPN (fdf : List LoadedRow) (c : String) : ℚ :=
  (clubSentCount fdf c "Positive" : ℚ) / ((clubSentCount fdf c "Negative" : ℚ) + 1)

/-- Size of one (year, sentiment) group of the tab-3 groupby on line 242.
The year column is NaN on null dates and pandas groupby drops NaN keys, so only
rows with a present year are counted. Note the source computes this from df,
the full loaded frame, not from filtered_df. -/
def yearTrendCount (df : List LoadedRow) (y : Nat) (s : String) : Nat :=
  (df.filter (fun r => decide (r.year = some y ∧ r.sentiment = s))).length

/-! Word-cloud tab, app.py lines 278-303. -/

/-- Word character of the regex backslash-w class. -/
def isWordChar (c : Char) : Bool := c.isAlphanum || c == '_'

/-- Match of the regex http followed by one or more non-whitespace characters
at the head of s. -/
def httpMatch (s : List Char) : Bool :=
  "http".data.isPrefixOf s &&
    (match s.drop 4 with
     | d :: _ => !d.isWhitespace
     | [] => false)

/-- Scan of re.sub removing http tokens, line 287; greedy, leftmost. -/
def subHttpAux : Nat → List Char → List Char
  | 0, cs => cs
  | _, [] => []
  | fuel + 1, c :: rest =>
    if httpMatch (c :: rest) then
      subHttpAux fuel (((c :: rest).drop 4).dropWhile (fun d => !d.isWhitespace))
    else
      c :: subHttpAux fuel rest

/-- Models re.sub of the http pattern with the empty string, line 287. -/
def subHttp (cs : List Char) : List Char := subHttpAux cs.length cs

/-- Match of the regex at-sign followed by one or more word characters. -/
def mentionMatch : List Char → Bool
  | '@' :: d :: _ => isWordChar d
  | _ => false

/-- Scan of re.sub removing mention tokens, line 288; greedy, leftmost. -/
def subMentionAux : Nat → List Char → List Char
  | 0, cs => cs
  | _, [] => []
  | fuel + 1, c :: rest =>
    if mentionMatch (c :: rest) then
      subMentionAux fuel (rest.dropWhile isWordChar)
    else
      c :: subMentionAux fuel rest

/-- Models re.sub of the mention pattern with the empty string, line 288. -/
def subMention (cs : List Char) : List Char := subMentionAux cs.length cs

/-- Models re.sub replacing every character outside letters and whitespace with
a space, line 289. -/
def mapNonAlpha (cs : List Char) : List Char :=
  cs.map (fun c => if c.isAlpha || c.isWhitespace then c else ' ')

/-- Models Python str.split() with no argument: whitespace runs separate words
and empty words are dropped. The accumulator holds the current word reversed. -/
def splitWsAux : List Char → List Char → List (List Char)
  | [], acc => if acc.isEmpty then [] else [acc.reverse]
  | c :: rest, acc =>
    if c.isWhitespace then
      if acc.isEmpty then splitWsAux rest [] else acc.reverse :: splitWsAux rest []
    else
      splitWsAux rest (c :: acc)

/-- Concatenation of the filtered rows, line 280: join of the text column with
single spaces. -/
def text_data_raw (fdf : List LoadedRow) : String :=
  String.intercalate " " (fdf.map (fun r => r.text))

/-- Word-cloud text cleaning of lines 286-292: lowercase, remove http and
mention tokens, blank out non-letters, keep words longer than two characters
that are not stop words, rejoin with spaces. stop models the stop_words set. -/
def cleanWC (stop : List String) (s : String) : String :=
  let lowered := s.data.map Char.toLower
  let alphaOnly := mapNonAlpha (subMention (subHttp lowered))
  let ws := (splitWsAux alphaOnly []).map (fun w => (⟨w⟩ : String))
  String.intercalate " " (ws.filter (fun w => !stop.contains w && 2 < w.length))

/-- Outcome of the word-cloud tab: the no-data warning of line 283, or a cloud
generated from the cleaned text, line 301. -/
inductive WCResult where
  | notice : WCResult
  | cloud (text : String) : WCResult
deriving DecidableEq

/-- Control flow of tab 4, lines 280-301: warn exactly when the raw joined text
strips to length zero, otherwise clean and generate. -/
def wordCloudTab (stop : List String) (fdf : List LoadedRow) : WCResult :=
  let td := text_data_raw fdf
  if (strTrim td).length = 0 then WCResult.notice
  else WCResult.cloud (cleanWC stop td)

/-! Concrete rows used by counterexamples and witnesses. -/

/-- Classifier stub that always succeeds with POSITIVE. -/
def clfPos : String → Option String := fun _ => some "POSITIVE"

/-- Classifier stub that always raises, modelled as always none. -/
def clfFail : String → Option String := fun _ => none

/-- Sample stub satisfying the pandas sample contract: the first n rows. -/
def takeSample : Nat → Nat → List TweetRow → List TweetRow :=
  fun _ n l => l.take n

/-- Tweet row whose text cell is missing. -/
def exNullRow : TweetRow :=
  { date := none, text := none, club_name := "x" }

/-- Tweet row with ordinary text. -/
def exTextRow : TweetRow :=
  { date := some ⟨2023, 5⟩, text := some "hello world", club_name := "fc_barca" }

/-- Raw export row with ordinary text. -/
def exRawRow : RawRow :=
  { tweet_created_at := some ⟨2023, 5⟩, tweet_full_text := some "hello world",
    user_screen_name := "fc_barca" }

/-- First labeled CSV row of the spec example. -/
def exCsv1 : CsvRow :=
  { date := some ⟨2023, 5⟩, text := "t1", club_name := "fc_barca",
    sentiment := "positive" }

/-- Second labeled CSV row of the spec example. -/
def exCsv2 : CsvRow :=
  { date := some ⟨2022, 1⟩, text := "t2", club_name := "real_madrid-fc",
    sentiment := "negative" }

/-- Loaded form of exCsv1. -/
def exLoaded1 : LoadedRow :=
  { date := some ⟨2023, 5⟩, text := "t1", club_name := "Barca",
    sentiment := "Positive", year := some 2023 }

/-- Loaded form of exCsv2. -/
def exLoaded2 : LoadedRow :=
  { date := some ⟨2022, 1⟩, text := "t2", club_name := "Real Madrid",
    sentiment := "Negative", year := some 2022 }

/-- Loaded row with a 2023 date and positive sentiment. -/
def ldA : LoadedRow :=
  { date := some ⟨2023, 5⟩, text := "good", club_name := "A",
    sentiment := "Positive", year := some 2023 }

/-- Loaded row with a 2022 date and negative sentiment. -/
def ldB : LoadedRow :=
  { date := some ⟨2022, 1⟩, text := "bad", club_name := "A",
    sentiment := "Negative", year := some 2022 }

/-- Loaded row with a null date. -/
def exNullDateRow : LoadedRow :=
  { date := none, text := "t", club_name := "C",
    sentiment := "Positive", year := none }

/-- Loaded row whose text is two exclamation marks: non-blank raw text that
cleans to nothing. -/
def exBangRow : LoadedRow :=
  { date := some ⟨2023, 1⟩, text := "!!", club_name := "A",
    sentiment := "Positive", year := some 2023 }

/-- Selection of year 2023 with all clubs. -/
def selY2023 : Selection := { year := some 2023, club := none }

/-! Helper lemmas shared by several claims. -/

/-- Length zero characterizes the empty string. -/
theorem strLength_eq_zero {s : String} : s.length = 0 ↔ s = "" := by
  cases s with
  | mk l =>
    rw [String.ext_iff]
    show l.length = 0 ↔ l = ("" : String).data
    simp [List.length_eq_zero]

/-- Membership in the cleaned table: the row is an input row whose text is
present and does not strip to empty. -/
theorem mem_cleanTextRows {r : TweetRow} {rows : List TweetRow} :
    r ∈ cleanTextRows rows ↔
      r ∈ rows ∧ r.text ≠ none ∧ strTrim (r.text.getD "") ≠ "" := by
  simp [cleanTextRows, dropBlankText, dropNullText, List.mem_filter,
    Option.isNone_iff_eq_none, Option.isSome_iff_ne_none, and_assoc, and_comm]

/-- Cleaning drops nothing from a table every row of which already has
present, non-blank text. -/
theorem cleanTextRows_eq_self {rows : List TweetRow}
    (h : ∀ r ∈ rows, r.text ≠ none ∧ strTrim (r.text.getD "") ≠ "") :
    cleanTextRows rows = rows := by
  have h1 : rows.filter (fun r => !r.text.isNone) = rows := by
    apply List.filter_eq_self.mpr
    intro a ha
    simp [Option.isNone_iff_eq_none, Option.isSome_iff_ne_none, (h a ha).1]
  have h2 : rows.filter (fun r => decide (strTrim (r.text.getD "") ≠ "")) = rows := by
    apply List.filter_eq_self.mpr
    intro a ha
    exact decide_eq_true (h a ha).2
  unfold cleanTextRows dropBlankText dropNullText
  rw [h1, h2]

/-! Claims. -/

/-- Claim C4: dashboard club-name normalization replaces underscores and
hyphens with spaces, case-insensitively strips the boilerplate tokens, trims
and title-cases; on the two example rows it yields Barca and Real Madrid, the
sentiments capitalize to Positive and Negative, and filtering by year 2023
yields exactly the first row. -/
theorem claim_C4 :
    cleanClubName "fc_barca" = "Barca" ∧
    cleanClubName "real_madrid-fc" = "Real Madrid" ∧
    capitalize "positive" = "Positive" ∧
    capitalize "negative" = "Negative" ∧
    load_data [exCsv1, exCsv2] = [exLoaded1, exLoaded2] ∧
    filtered_df ⟨some 2023, none⟩ (load_data [exCsv1, exCsv2]) = [exLoaded1] := by
  refine ⟨by decide, by decide, by decide, by decide, by decide, by decide⟩

/-- Claim C6: the classifier call receives only the first 512 characters of a
row text (the result depends on nothing beyond them), any raised call yields
the NEUTRAL label for that row without propagating, and with an
always-raising classifier every output row is labeled NEUTRAL. -/
theorem claim_C6 :
    (∀ clf t1 t2, strTake t1 512 = strTake t2 512 →
      safe_predict clf t1 = safe_predict clf t2) ∧
    (∀ clf t, clf (strTake t 512) = none → safe_predict clf t = "NEUTRAL") ∧
    (∀ rows, ∀ lr ∈ analyzeSentiment clfFail rows, lr.sentiment = "NEUTRAL") := by
  refine ⟨?_, ?_, ?_⟩
  · intro clf t1 t2 h
    simp [safe_predict, h]
  · intro clf t h
    simp [safe_predict, h]
  · intro rows lr hlr
    rw [analyzeSentiment, List.mem_map] at hlr
    obtain ⟨r, _, heq⟩ := hlr
    subst heq
    simp [safe_predict, clfFail]

/-- Witness for C6 at a concrete text and an always-raising classifier. -/
theorem claim_C6_witness : safe_predict clfFail "hello" = "NEUTRAL" :=
  claim_C6.2.1 clfFail "hello" rfl

/-- Claim C9: dashboard filtering leaves an All dimension unconstrained,
filters by exact equality otherwise, composes the two dimensions by logical
AND, and the All-All selection returns the loaded dataset unchanged. -/
theorem claim_C9 :
    (∀ df : List LoadedRow, filtered_df ⟨none, none⟩ df = df) ∧
    (∀ sel df, filtered_df sel df = df.filter (fun r =>
      (match sel.year with | none => true | some y => decide (r.year = some y)) &&
      (match sel.club with | none => true | some c => decide (r.club_name = c)))) := by
  constructor
  · intro df
    rfl
  · intro sel df
    obtain ⟨oy, oc⟩ := sel
    cases oy with
    | none =>
      cases oc with
      | none => simp [filtered_df]
      | some c => simp [filtered_df]
    | some y =>
      cases oc with
      | none => simp [filtered_df]
      | some c =>
        simp only [filtered_df, List.filter_filter]
        apply List.filter_congr
        intro x _
        exact Bool.and_comm _ _

/-- Witness for C9: the All-All selection on the two loaded example rows. -/
theorem claim_C9_witness :
    filtered_df ⟨none, none⟩ [exLoaded1, exLoaded2] = [exLoaded1, exLoaded2] :=
  claim_C9.1 [exLoaded1, exLoaded2]

/-- Claim C10: the Classifier re-applies the Sampler text cleaning, so every
output row has present non-blank text, and on input already satisfying that
condition the cleaning step drops no rows. -/
theorem claim_C10 (clf : String → Option String) (rows : List TweetRow) :
    (∀ lr ∈ analyzeSentiment clf rows,
      lr.text ≠ none ∧ strTrim (lr.text.getD "") ≠ "") ∧
    ((∀ r ∈ rows, r.text ≠ none ∧ strTrim (r.text.getD "") ≠ "") →
      cleanTextRows rows = rows) := by
  constructor
  · intro lr hlr
    rw [analyzeSentiment, List.mem_map] at hlr
    obtain ⟨r, hr, heq⟩ := hlr
    rcases mem_cleanTextRows.mp hr with ⟨-, h1, h2⟩
    subst heq
    exact ⟨h1, h2⟩
  · exact cleanTextRows_eq_self

/-- Witness for C10 on a one-row table with ordinary text. -/
theorem claim_C10_witness : cleanTextRows [exTextRow] = [exTextRow] :=
  (claim_C10 clfPos [exTextRow]).2 (by decide)

/-- Claim C1 counterexample: on an input table containing a row with a missing
text cell, the Classifier output has fewer rows than the input, because lines
8-9 drop the row before labeling. -/
theorem claim_C1_counterexample :
    (analyzeSentiment clfPos [exNullRow]).length ≠
      ([exNullRow] : List TweetRow).length := by
  decide

/-- Claim C1 amended: the Classifier output row count equals the row count
after its initial null/blank text cleaning; when no input row has null or
blank text it equals the input row count; and when the external classifier
honors its binary POSITIVE/NEGATIVE contract, every output row carries a
sentiment from the fixed label set. -/
theorem claim_C1_amended (clf : String → Option String) (rows : List TweetRow)
    (hclf : ∀ t l, clf t = some l → l = "POSITIVE" ∨ l = "NEGATIVE") :
    (analyzeSentiment clf rows).length = (cleanTextRows rows).length ∧
    ((∀ r ∈ rows, r.text ≠ none ∧ strTrim (r.text.getD "") ≠ "") →
      (analyzeSentiment clf rows).length = rows.length) ∧
    (∀ lr ∈ analyzeSentiment clf rows,
      lr.sentiment = "POSITIVE" ∨ lr.sentiment = "NEGATIVE" ∨
        lr.sentiment = "NEUTRAL") := by
  refine ⟨?_, ?_, ?_⟩
  · rw [analyzeSentiment, List.length_map]
  · intro h
    rw [analyzeSentiment, List.length_map, cleanTextRows_eq_self h]
  · intro lr hlr
    rw [analyzeSentiment, List.mem_map] at hlr
    obtain ⟨r, _, heq⟩ := hlr
    subst heq
    show safe_predict clf (r.text.getD "") = _ ∨ _ ∨ _
    unfold safe_predict
    cases hc : clf (strTake (r.text.getD "") 512) with
    | none => simp
    | some l =>
      rcases hclf _ _ hc with h1 | h1 <;> simp [h1]

/-- Witness for C1 on a one-row table with ordinary text and a classifier that
always answers POSITIVE. -/
theorem claim_C1_witness :
    (analyzeSentiment clfPos [exTextRow]).length =
      ([exTextRow] : List TweetRow).length :=
  (claim_C1_amended clfPos [exTextRow]
    (by intro t l h; injection h with h1; exact Or.inl h1.symm)).2.1
    (by decide)

/-- Claim C2 counterexample: two loaded datasets agreeing on the filtered view
of the year-2023 selection on which the tab-3 yearly trend differs, because
line 242 computes the trend from the full dataframe, not the filtered one. -/
theorem claim_C2_counterexample :
    filtered_df selY2023 [ldA] = filtered_df selY2023 [ldA, ldB] ∧
    yearTrendCount [ldA] 2022 "Negative" ≠
      yearTrendCount [ldA, ldB] 2022 "Negative" := by
  refine ⟨by decide, by decide⟩

/-- Claim C2 amended: every displayed aggregate except the tab-3 yearly trend
is a function of the filtered view alone: whenever two datasets induce the
same filtered view under a selection, the overview metrics, sentiment counts,
monthly buckets, club volumes, club-sentiment breakdowns, smoothed balances
and word-cloud text agree. The tab-3 yearly trend is computed from the full
loaded dataset instead. -/
theorem claim_C2_amended (d1 d2 : List LoadedRow) (sel : Selection)
    (h : filtered_df sel d1 = filtered_df sel d2) :
    totalTweets (filtered_df sel d1) = totalTweets (filtered_df sel d2) ∧
    (∀ s, sentCount (filtered_df sel d1) s = sentCount (filtered_df sel d2) s) ∧
    (∀ k s, bucketCount (filtered_df sel d1) k s =
      bucketCount (filtered_df sel d2) k s) ∧
    (∀ c, clubCount (filtered_df sel d1) c = clubCount (filtered_df sel d2) c) ∧
    (∀ c s, clubSentCount (filtered_df sel d1) c s =
      clubSentCount (filtered_df sel d2) c s) ∧
    (∀ c, ratioPN (filtered_df sel d1) c = ratioPN (filtered_df sel d2) c) ∧
    text_data_raw (filtered_df sel d1) = text_data_raw (filtered_df sel d2) ∧
    (∀ stop, wordCloudTab stop (filtered_df sel d1) =
      wordCloudTab stop (filtered_df sel d2)) := by
  simp [h]

/-- Witness for C2 on the two concrete datasets that agree under the year-2023
selection. -/
theorem claim_C2_witness :
    sentCount (filtered_df selY2023 [ldA]) "Positive" =
      sentCount (filtered_df selY2023 [ldA, ldB]) "Positive" :=
  (claim_C2_amended [ldA] [ldA, ldB] selY2023 (by decide)).2.1 "Positive"

/-- Claim C3 counterexample: the monthly grouping keys a null-date row by the
literal string NaT and counts it, where the specification says it is excluded
(comparison definition bucketCountSpec). -/
theorem claim_C3_counterexample :
    bucketCount [exNullDateRow] MKey.natStr "Positive" = 1 ∧
    bucketCountSpec [exNullDateRow] MKey.natStr "Positive" = 0 := by
  refine ⟨by decide, by decide⟩

/-- Claim C3 amended: a year-month bucket counts exactly the rows whose date
has that year and month, and rows with a null date are not excluded: they are
all counted under the NaT string key. -/
theorem claim_C3_amended :
    (∀ rows y m s, bucketCount rows (MKey.ym y m) s =
      (rows.filter (fun r =>
        decide (r.date = some ⟨y, m⟩ ∧ r.sentiment = s))).length) ∧
    (∀ rows s, bucketCount rows MKey.natStr s =
      (rows.filter (fun r =>
        decide (r.date = none ∧ r.sentiment = s))).length) := by
  constructor
  · intro rows y m s
    unfold bucketCount
    congr 1
    apply List.filter_congr
    intro r _
    cases hd : r.date with
    | none => simp [monthKey]
    | some d =>
      cases d
      simp [monthKey, MKey.ym.injEq, Date.mk.injEq, and_assoc]
  · intro rows s
    unfold bucketCount
    congr 1
    apply List.filter_congr
    intro r _
    cases hd : r.date with
    | none => simp [monthKey]
    | some d => simp [monthKey]

/-- Witness for C3 at a concrete bucket of the loaded example row. -/
theorem claim_C3_witness :
    bucketCount [exLoaded1] (MKey.ym 2023 5) "Positive" =
      ([exLoaded1].filter (fun r =>
        decide (r.date = some ⟨2023, 5⟩ ∧ r.sentiment = "Positive"))).length :=
  claim_C3_amended.1 [exLoaded1] 2023 5 "Positive"

/-- Claim C5 counterexample: a filtered view whose concatenated text cleans to
empty but is non-blank raw, so the no-data notice is not rendered and the
word-cloud generator is invoked on empty text (line 282 checks before
cleaning). -/
theorem claim_C5_counterexample :
    cleanWC [] (text_data_raw [exBangRow]) = "" ∧
    wordCloudTab [] [exBangRow] ≠ WCResult.notice := by
  refine ⟨by decide, by decide⟩

/-- Claim C5 amended: the no-data notice is rendered exactly when the raw
concatenated text of the filtered rows strips to empty, the check happening
before cleaning; otherwise the generator is invoked on the cleaned text, even
when that cleaned text is empty. -/
theorem claim_C5_amended (stop : List String) (fdf : List LoadedRow) :
    (wordCloudTab stop fdf = WCResult.notice ↔
      strTrim (text_data_raw fdf) = "") ∧
    (strTrim (text_data_raw fdf) ≠ "" →
      wordCloudTab stop fdf = WCResult.cloud (cleanWC stop (text_data_raw fdf))) := by
  by_cases h : (strTrim (text_data_raw fdf)).length = 0
  · have he : strTrim (text_data_raw fdf) = "" := strLength_eq_zero.mp h
    constructor
    · simp [wordCloudTab, h, he]
    · intro hne
      exact absurd he hne
  · have he : strTrim (text_data_raw fdf) ≠ "" := by
      intro hh
      exact h (by rw [hh]; rfl)
    constructor
    · simp only [wordCloudTab, if_neg h]
      constructor
      · intro hc
        cases hc
      · intro hc
        exact absurd hc he
    · intro _
      simp only [wordCloudTab, if_neg h]

/-- Witness for C5 on the exclamation-mark row: generator invoked on the
cleaned (here empty) text. -/
theorem claim_C5_witness :
    wordCloudTab [] [exBangRow] =
      WCResult.cloud (cleanWC [] (text_data_raw [exBangRow])) :=
  (claim_C5_amended [] [exBangRow]).2 (by decide)

/-- Claim C7: under the pandas sample contract (a draw of exactly n of the
given rows), the Sampler emits exactly 1500 rows drawn from the cleaned table
when that table exceeds 1500 rows, every emitted row coming from the cleaned
table, and emits the cleaned table itself otherwise; the seed is fixed to 42
in the call, so the output is a deterministic function of the input. -/
theorem claim_C7 (sampleFn : Nat → Nat → List TweetRow → List TweetRow)
    (raw : List RawRow)
    (hlen : ∀ seed n l, n ≤ l.length → (sampleFn seed n l).length = n)
    (hsub : ∀ seed n l, sampleFn seed n l ⊆ l) :
    (1500 < (cleanTextRows (raw.map renameRow)).length →
      (df_clean sampleFn raw).length = 1500 ∧
      df_clean sampleFn raw ⊆ cleanTextRows (raw.map renameRow)) ∧
    ((cleanTextRows (raw.map renameRow)).length ≤ 1500 →
      df_clean sampleFn raw = cleanTextRows (raw.map renameRow)) := by
  constructor
  · intro h
    constructor
    · simp only [df_clean, if_pos h]
      exact hlen 42 1500 _ (Nat.le_of_lt h)
    · simp only [df_clean, if_pos h]
      exact hsub 42 1500 _
  · intro h
    simp only [df_clean, if_neg (Nat.not_lt.mpr h)]

/-- Witness for C7: the take-sample stub satisfies the contract and the
one-row raw table sits in the at-most-1500 branch. -/
theorem claim_C7_witness :
    df_clean takeSample [exRawRow] = cleanTextRows ([exRawRow].map renameRow) :=
  (claim_C7 takeSample [exRawRow]
    (by
      intro seed n l h
      simp only [takeSample, List.length_take]
      exact Nat.min_eq_left h)
    (by
      intro seed n l
      simp only [takeSample]
      exact List.take_subset n l)).2
    (by decide)

/-- Claim C8: no row of the Sampler output has a missing text cell or a text
that strips to empty, given that the external sample draws only rows of the
table it is handed. -/
theorem claim_C8 (sampleFn : Nat → Nat → List TweetRow → List TweetRow)
    (raw : List RawRow)
    (hsub : ∀ seed n l, sampleFn seed n l ⊆ l) :
    ∀ r ∈ df_clean sampleFn raw,
      r.text ≠ none ∧ strTrim (r.text.getD "") ≠ "" := by
  intro r hr
  have hr2 : r ∈ cleanTextRows (raw.map renameRow) := by
    by_cases h : 1500 < (cleanTextRows (raw.map renameRow)).length
    · rw [df_clean] at hr
      simp only [if_pos h] at hr
      exact hsub 42 1500 _ hr
    · rw [df_clean] at hr
      simp only [if_neg h] at hr
      exact hr
  rcases mem_cleanTextRows.mp hr2 with ⟨-, h1, h2⟩
  exact ⟨h1, h2⟩

/-- Witness for C8 at the concrete output row of the one-row raw table. -/
theorem claim_C8_witness :
    exTextRow.text ≠ none ∧ strTrim (exTextRow.text.getD "") ≠ "" :=
  claim_C8 takeSample [exRawRow]
    (by
      intro seed n l
      simp only [takeSample]
      exact List.take_subset n l)
    exTextRow (by decide)

end Omnisent
